import Mathlib

set_option linter.unusedVariables false

/-!
Verification of the rook NFS-ganesha controller and the Ceph OSD deployment
builder against their natural-language specification.  The Go sources are
embedded shallowly: pure resource construction becomes pure Lean functions,
and the controller's substrate interaction becomes a trace-producing
interpreter over an explicit substrate-outcome record.
-/

namespace Rook

/-! ## Instance identity (`k8sutil.IndexToName`) -/

/-- Modelled from the spec: `k8sutil.IndexToName` is called by the controller
(`createGanesha`, `deleteGanesha`) but its definition is not under `src/`.
The spec describes it as bijective base-26 over lowercase letters
(0→"a", 25→"z", 26→"aa", 27→"ab", …, spreadsheet-column naming).
`identityDigits` produces the digit list (most significant first), each digit
in `[0, 26)`. -/
def identityDigits (o : Nat) : List Nat :=
  if o < 26 then [o]
  else identityDigits (o / 26 - 1) ++ [o % 26]
termination_by o
decreasing_by
  have h26 : 26 ≤ o := Nat.le_of_not_lt (by assumption)
  have hlt : o / 26 < o := Nat.div_lt_self (by omega) (by omega)
  omega

/-- A base-26 digit rendered as a lowercase letter. -/
def digitChar (d : Nat) : Char := Char.ofNat (97 + d)

/-- Modelled from the spec: the instance identity assigner
(`k8sutil.IndexToName`), a pure function of the ordinal. -/
def identityOf (o : Nat) : String := ⟨(identityDigits o).map digitChar⟩

/-- The numeric value of a bijective base-26 digit string, offset by one:
digit list `d₁ … dₙ` stands for ordinal `Σ (dᵢ+1)·26^(n-i) - 1`. -/
def digitsVal (ds : List Nat) : Nat := ds.foldl (fun acc d => acc * 26 + (d + 1)) 0

theorem digitsVal_append_single (xs : List Nat) (d : Nat) :
    digitsVal (xs ++ [d]) = digitsVal xs * 26 + (d + 1) := by
  simp [digitsVal, List.foldl_append]

theorem digitsVal_identityDigits (o : Nat) : digitsVal (identityDigits o) = o + 1 := by
  induction o using Nat.strong_induction_on with
  | _ o ih =>
    rw [identityDigits]
    split
    · simp [digitsVal]
    · have h26 : 26 ≤ o := Nat.le_of_not_lt (by assumption)
      have hq : 1 ≤ o / 26 := Nat.one_le_div_iff (by omega) |>.mpr h26
      have hlt : o / 26 - 1 < o := by
        have := Nat.div_lt_self (show 0 < o by omega) (show 1 < 26 by omega)
        omega
      rw [digitsVal_append_single, ih _ hlt]
      have hmod := Nat.div_add_mod o 26
      omega

theorem identityDigits_lt (o : Nat) : ∀ d ∈ identityDigits o, d < 26 := by
  induction o using Nat.strong_induction_on with
  | _ o ih =>
    rw [identityDigits]
    split
    · intro d hd
      simp at hd
      omega
    · have h26 : 26 ≤ o := Nat.le_of_not_lt (by assumption)
      have hlt : o / 26 - 1 < o := by
        have := Nat.div_lt_self (show 0 < o by omega) (show 1 < 26 by omega)
        omega
      intro d hd
      rcases List.mem_append.mp hd with h | h
      · exact ih _ hlt d h
      · simp at h
        subst h
        exact Nat.mod_lt _ (by omega)

theorem toNat_digitChar {d : Nat} (hd : d < 26) : (digitChar d).toNat = 97 + d := by
  interval_cases d <;> rfl

theorem digitChar_inj {d e : Nat} (hd : d < 26) (he : e < 26)
    (h : digitChar d = digitChar e) : d = e := by
  have := congrArg Char.toNat h
  rw [toNat_digitChar hd, toNat_digitChar he] at this
  omega

theorem map_digitChar_inj : ∀ (l₁ l₂ : List Nat), (∀ d ∈ l₁, d < 26) → (∀ d ∈ l₂, d < 26) →
    l₁.map digitChar = l₂.map digitChar → l₁ = l₂ := by
  intro l₁
  induction l₁ with
  | nil =>
    intro l₂ _ _ h
    cases l₂ with
    | nil => rfl
    | cons b bs => simp at h
  | cons a as ihs =>
    intro l₂ h₁ h₂ h
    cases l₂ with
    | nil => simp at h
    | cons b bs =>
      simp only [List.map_cons, List.cons.injEq] at h
      have ha : a < 26 := h₁ a (by simp)
      have hb : b < 26 := h₂ b (by simp)
      have hd := digitChar_inj ha hb h.1
      have ht := ihs bs (fun d hd => h₁ d (by simp [hd])) (fun d hd => h₂ d (by simp [hd])) h.2
      rw [hd, ht]

theorem identityOf_injective : Function.Injective identityOf := by
  intro o₁ o₂ h
  have hdata : (identityDigits o₁).map digitChar = (identityDigits o₂).map digitChar := by
    have := congrArg String.data h
    simpa [identityOf] using this
  have hdig := map_digitChar_inj _ _ (identityDigits_lt o₁) (identityDigits_lt o₂) hdata
  have hv₁ := digitsVal_identityDigits o₁
  have hv₂ := digitsVal_identityDigits o₂
  rw [hdig] at hv₁
  omega

/-- C1: the instance identity function is a pure total function of the
ordinal, implementing bijective base-26 over lowercase letters; the six
spec examples hold and it is injective on the whole range `[0, 1000)`. -/
theorem identityOf_spec :
    identityOf 0 = "a" ∧ identityOf 25 = "z" ∧ identityOf 26 = "aa" ∧
    identityOf 27 = "ab" ∧ identityOf 701 = "zz" ∧ identityOf 702 = "aaa" ∧
    ∀ o₁ o₂ : Nat, o₁ < 1000 → o₂ < 1000 → o₁ ≠ o₂ → identityOf o₁ ≠ identityOf o₂ := by
  refine ⟨?_, ?_, ?_, ?_, ?_, ?_, ?_⟩
  · simp [identityOf, identityDigits, digitChar]
  · simp [identityOf, identityDigits, digitChar]
  · simp [identityOf, identityDigits, digitChar]
  · simp [identityOf, identityDigits, digitChar]
  · simp [identityOf, identityDigits, digitChar]
  · simp [identityOf, identityDigits, digitChar]
  · intro o₁ o₂ _ _ hne heq
    exact hne (identityOf_injective heq)

/-- Witness for C1 at concrete ordinals. -/
theorem identityOf_spec_witness :
    identityOf 0 = "a" ∧ 26 < 1000 ∧ 27 < 1000 ∧ 26 ≠ 27 ∧ identityOf 26 ≠ identityOf 27 := by
  obtain ⟨h0, _, _, _, _, _, hinj⟩ := identityOf_spec
  exact ⟨h0, by omega, by omega, by omega, hinj 26 27 (by omega) (by omega) (by omega)⟩

/-! ## Kubernetes resource model

A minimal shallow model of the `k8s.io/api/core/v1` values the embedded
functions construct: environment variables (with the Go `Value` /
`ValueFrom` split), volumes, volume mounts, containers, pod specs and
deployments.  Fields the source never reads or branches on (images,
resource requirements, owner references, placement) are carried as plain
data or omitted. -/

structure EnvVar where
  name : String
  value : String := ""
  valueFrom : Option String := none
deriving DecidableEq

inductive VolumeSource
  | hostPath (path : String)
  | emptyDir
  | configMap (name : String)
deriving DecidableEq

structure Volume where
  name : String
  source : VolumeSource
deriving DecidableEq

structure VolumeMount where
  name : String
  mountPath : String
deriving DecidableEq

structure SecurityContext where
  privileged : Bool
  runAsUser : Int := 0
  runAsNonRoot : Option Bool := none
  readOnlyRootFilesystem : Option Bool := none
deriving DecidableEq

structure Container where
  name : String := ""
  image : String := ""
  command : List String := []
  args : List String := []
  volumeMounts : List VolumeMount := []
  env : List EnvVar := []
  securityContext : Option SecurityContext := none
deriving DecidableEq

structure PodSpec where
  initContainers : List Container := []
  containers : List Container := []
  volumes : List Volume := []
  hostNetwork : Bool := false
  hostPID : Bool := false
deriving DecidableEq

structure Deployment where
  name : String
  nspace : String
  podSpec : PodSpec
deriving DecidableEq

/-! ## External helpers of the OSD builder

`spec.go` calls constants and helpers from the `k8sutil`, `opspec`, `opmon`
and `config` packages that are not under `src/`; they are modelled below. -/

/-- `k8sutil.DataDir`: the default data directory inside the container.  The
source comment at `spec.go:91-93` fixes it to `/var/lib/rook`. -/
def DataDir : String := "/var/lib/rook"

/-- Modelled from the spec: `k8sutil.BinariesMountPath`, not under `src/`.
It is the mount path of the staged-binaries volume, so it coincides with the
`rookBinariesMountPath` constant of `spec.go` (`/rook`): the staged command
must point into the shared ephemeral volume. -/
def BinariesMountPath : String := "/rook"

/-- Modelled from the spec: `opspec.ConfigInitContainerName`, not under
`src/`; the fixed name of the config init container. -/
def ConfigInitContainerName : String := "config-init"

/-- Modelled from the spec: `k8sutil.MakeRookImage`, not under `src/`; a
deterministic image reference for a rook version.  No claim depends on its
value. -/
def MakeRookImage (version : String) : String := "rook/ceph:" ++ version

/-- Go `path.Join` restricted to its uses here: joining a clean directory
with a relative name. -/
def pathJoin (a b : String) : String := a ++ "/" ++ b

/-- Go `filepath.Dir` for clean, `/`-separated paths (the form OSD data
paths take): drop the final path element and any trailing separators; the
parent of a single element is `"."` and of a child of the root is `"/"`. -/
def filepathDir (p : String) : String :=
  let r := p.data.reverse.dropWhile (fun c => c ≠ '/')
  let r₂ := r.dropWhile (fun c => c = '/')
  if r₂.isEmpty then (if r.isEmpty then "." else "/") else ⟨r₂.reverse⟩

/-- Modelled from the spec: `k8sutil.PathToVolumeName`, not under `src/`; a
deterministic volume name derived from a host path.  The claims depend only
on the volume's host-path source, never on the derived name. -/
def PathToVolumeName (p : String) : String :=
  ⟨p.data.map (fun c => if c = '/' then '-' else c)⟩

/-- Modelled from the spec: `opspec.PodVolumes(dataDirHostPath)`, not under
`src/` — the base volumes every rook pod carries: the default data-directory
volume (the "default mount" the spec's directory rule reuses; a host path
when `dataDirHostPath` is configured, an empty dir otherwise) and the
config-override volume. -/
def PodVolumes (dataDirHostPath : String) : List Volume :=
  [ { name := "rook-data",
      source := if dataDirHostPath = "" then .emptyDir else .hostPath dataDirHostPath },
    { name := "rook-config-override", source := .configMap ("rook-config-override") } ]

/-- Modelled from the spec: `opspec.CephVolumeMounts()`, not under `src/` —
the base mounts of a ceph daemon container (data dir and config override). -/
def CephVolumeMounts : List VolumeMount :=
  [ { name := "rook-data", mountPath := DataDir },
    { name := "rook-config-override", mountPath := "/etc/rook/config" } ]

/-- Modelled from the spec: `opspec.RookVolumeMounts()`, not under `src/` —
the base mounts of a rook container.  The claims only ever append to this
list, so its exact contents are irrelevant; it is modelled as the same base
mounts. -/
def RookVolumeMounts : List VolumeMount := CephVolumeMounts

/-- `k8sutil.PrivateIPEnvVar` (modelled from the spec; name only). -/
def PrivateIPEnvVar : String := "ROOK_PRIVATE_IP"

/-- `k8sutil.PublicIPEnvVar` (modelled from the spec; name only). -/
def PublicIPEnvVar : String := "ROOK_PUBLIC_IP"

/-- Modelled from the spec: `k8sutil.PodIPEnvVar`, a downward-API env var. -/
def PodIPEnvVar (property : String) : EnvVar :=
  { name := property, valueFrom := some ("fieldRef:status.podIP") }

/-- Modelled from the spec: `opmon.ClusterNameEnvVar`. -/
def ClusterNameEnvVar (nspace : String) : EnvVar :=
  { name := "ROOK_CLUSTER_NAME", value := nspace }

/-- Modelled from the spec: `opmon.EndpointEnvVar`. -/
def EndpointEnvVar : EnvVar :=
  { name := "ROOK_MON_ENDPOINTS", valueFrom := some ("configMapKeyRef:rook-ceph-mon-endpoints:data") }

/-- Modelled from the spec: `opmon.SecretEnvVar`. -/
def SecretEnvVar : EnvVar :=
  { name := "ROOK_MON_SECRET", valueFrom := some ("secretKeyRef:rook-ceph-mon:mon-secret") }

/-- Modelled from the spec: `opmon.AdminSecretEnvVar`. -/
def AdminSecretEnvVar : EnvVar :=
  { name := "ROOK_ADMIN_SECRET", valueFrom := some ("secretKeyRef:rook-ceph-mon:admin-secret") }

/-- Modelled from the spec: `k8sutil.ConfigDirEnvVar`. -/
def ConfigDirEnvVar (dataDir : String) : EnvVar :=
  { name := "ROOK_CONFIG_DIR", value := dataDir }

/-- Modelled from the spec: `k8sutil.ConfigOverrideEnvVar`. -/
def ConfigOverrideEnvVar : EnvVar :=
  { name := "ROOK_CEPH_CONFIG_OVERRIDE", value := "/etc/rook/config/override.conf" }

/-- Modelled from the spec: `rookalpha.LocationEnvVar`. -/
def LocationEnvVar (location : String) : EnvVar :=
  { name := "ROOK_LOCATION", value := location }

/-- Modelled from the spec: `k8sutil.ClusterDaemonEnvVars`, downward-API
variables shared by cluster daemons; none of their names is a store-config
name. -/
def ClusterDaemonEnvVars : List EnvVar :=
  [ { name := "POD_NAME", valueFrom := some ("fieldRef:metadata.name") },
    { name := "POD_NAMESPACE", valueFrom := some ("fieldRef:metadata.namespace") },
    { name := "NODE_NAME", valueFrom := some ("fieldRef:spec.nodeName") } ]

/-- Modelled from the spec: the `osd` package's node-removal sentinel
(`IsRemovingNode`, defined outside `src/`): a reserved device-filter value
marking a node being drained.  Only its falsity on ordinary filters matters
to the claims. -/
def IsRemovingNode (devices : String) : Bool := devices = "none"

/-- Modelled from the spec: the keys of the `config` package
(`config.StoreTypeKey` …), not under `src/`; `getConfigFromContainer` maps
env-var names onto them. -/
def StoreTypeKey : String := "storeType"

/-- Modelled from the spec: `config.DatabaseSizeMBKey`. -/
def DatabaseSizeMBKey : String := "databaseSizeMB"

/-- Modelled from the spec: `config.WalSizeMBKey`. -/
def WalSizeMBKey : String := "walSizeMB"

/-- Modelled from the spec: `config.JournalSizeMBKey`. -/
def JournalSizeMBKey : String := "journalSizeMB"

/-- Modelled from the spec: `config.MetadataDeviceKey`. -/
def MetadataDeviceKey : String := "metadataDevice"

/-! ## OSD builder data model (`spec.go`) -/

/-- `rookalpha.Device`: an explicitly listed raw device. -/
structure Device where
  name : String := ""
deriving DecidableEq

/-- `rookalpha.Directory`: an explicitly listed data directory. -/
structure Directory where
  path : String := ""
deriving DecidableEq

/-- `rookalpha.Selection`: the media selectors of a storage node. -/
structure Selection where
  useAllDevices : Option Bool := none
  deviceFilter : String := ""
  directories : List Directory := []
deriving DecidableEq

/-- `Selection.GetUseAllDevices()`: nil-tolerant accessor. -/
def Selection.getUseAllDevices (s : Selection) : Bool := s.useAllDevices.getD false

/-- `config.StoreConfig`: store format and size hints. -/
structure StoreConfig where
  storeType : String := ""
  databaseSizeMB : Int := 0
  walSizeMB : Int := 0
  journalSizeMB : Int := 0
deriving DecidableEq

/-- `osd.OSDInfo`: the provisioned OSD a deployment is built for. -/
structure OSDInfo where
  id : Int := 0
  cluster : String := ""
  uuid : String := ""
  devicePartUUID : String := ""
  dataPath : String := ""
  config : String := ""
  keyringPath : String := ""
  journal : String := ""
  isFileStore : Bool := false
  isDirectory : Bool := false
deriving DecidableEq

/-- The fields of `osd.Cluster` the embedded functions read.
`hostpathRequiresPrivileged` models the ambient
`os.Getenv("ROOK_HOSTPATH_REQUIRES_PRIVILEGED") == "true"` read at
`spec.go:414`. -/
structure Cluster where
  nspace : String := ""
  dataDirHostPath : String := ""
  serviceAccount : String := ""
  hostNetwork : Bool := false
  rookVersion : String := ""
  cephImage : String := ""
  ownerRefUID : String := ""
  hostpathRequiresPrivileged : Bool := false
deriving DecidableEq

/-! ## OSD builder constants and env-var helpers (`spec.go:40-49, 438-472`) -/

def dataDirsEnvVarName : String := "ROOK_DATA_DIRECTORIES"

def osdStoreEnvVarName : String := "ROOK_OSD_STORE"

def osdDatabaseSizeEnvVarName : String := "ROOK_OSD_DATABASE_SIZE"

def osdWalSizeEnvVarName : String := "ROOK_OSD_WAL_SIZE"

def osdJournalSizeEnvVarName : String := "ROOK_OSD_JOURNAL_SIZE"

def osdMetadataDeviceEnvVarName : String := "ROOK_METADATA_DEVICE"

def rookBinariesMountPath : String := "/rook"

def rookBinariesVolumeName : String := "rook-binaries"

def nodeNameEnvVar (name : String) : EnvVar :=
  { name := "ROOK_NODE_NAME", value := name }

def dataDevicesEnvVar (dataDevices : String) : EnvVar :=
  { name := "ROOK_DATA_DEVICES", value := dataDevices }

def deviceFilterEnvVar (filter : String) : EnvVar :=
  { name := "ROOK_DATA_DEVICE_FILTER", value := filter }

def metadataDeviceEnvVar (metadataDevice : String) : EnvVar :=
  { name := osdMetadataDeviceEnvVarName, value := metadataDevice }

def dataDirectoriesEnvVar (dataDirectories : String) : EnvVar :=
  { name := dataDirsEnvVarName, value := dataDirectories }

def osdStoreEnvVar (osdStore : String) : EnvVar :=
  { name := osdStoreEnvVarName, value := osdStore }

def osdDatabaseSizeEnvVar (databaseSize : Int) : EnvVar :=
  { name := osdDatabaseSizeEnvVarName, value := toString databaseSize }

def osdWalSizeEnvVar (walSize : Int) : EnvVar :=
  { name := osdWalSizeEnvVarName, value := toString walSize }

def osdJournalSizeEnvVar (journalSize : Int) : EnvVar :=
  { name := osdJournalSizeEnvVarName, value := toString journalSize }

/-- `Cluster.getConfigEnvVars` (`spec.go:326-361`): the common config env
vars followed by the optional store-config and location vars, each appended
only when non-default. -/
def Cluster.getConfigEnvVars (c : Cluster) (storeConfig : StoreConfig)
    (dataDir nodeName location : String) : List EnvVar :=
  [ nodeNameEnvVar nodeName,
    { name := "ROOK_CLUSTER_ID", value := c.ownerRefUID },
    PodIPEnvVar PrivateIPEnvVar,
    PodIPEnvVar PublicIPEnvVar,
    ClusterNameEnvVar c.nspace,
    EndpointEnvVar,
    SecretEnvVar,
    AdminSecretEnvVar,
    ConfigDirEnvVar dataDir,
    ConfigOverrideEnvVar ]
  ++ (if storeConfig.storeType ≠ "" then [osdStoreEnvVar storeConfig.storeType] else [])
  ++ (if storeConfig.databaseSizeMB ≠ 0 then [osdDatabaseSizeEnvVar storeConfig.databaseSizeMB] else [])
  ++ (if storeConfig.walSizeMB ≠ 0 then [osdWalSizeEnvVar storeConfig.walSizeMB] else [])
  ++ (if storeConfig.journalSizeMB ≠ 0 then [osdJournalSizeEnvVar storeConfig.journalSizeMB] else [])
  ++ (if location ≠ "" then [LocationEnvVar location] else [])

/-- The staged-binaries volume built by `getCopyBinariesContainer`
(`spec.go:257`). -/
def rookBinariesVolume : Volume :=
  { name := rookBinariesVolumeName, source := .emptyDir }

/-- The staged-binaries mount built by `getCopyBinariesContainer`
(`spec.go:258`). -/
def rookBinariesMount : VolumeMount :=
  { name := rookBinariesVolumeName, mountPath := rookBinariesMountPath }

/-- `Cluster.getCopyBinariesContainer` (`spec.go:256-267`): the shared
ephemeral volume and the init/helper container copying the `tini` and `rook`
binaries into it. -/
def Cluster.getCopyBinariesContainer (c : Cluster) : Volume × Container :=
  ( rookBinariesVolume,
    { name := "copy-bins",
      image := MakeRookImage c.rookVersion,
      args := ["ceph", "osd", "copybins"],
      volumeMounts := [rookBinariesMount],
      env := [{ name := "ROOK_PATH", value := rookBinariesMountPath }] } )

/-- The common `ceph-osd` arguments of `makeDeployment` (`spec.go:128-139`),
with the journal argument appended for file-based stores. -/
def osdCommonArgs (osd : OSDInfo) : List String :=
  let base := ["--foreground",
               "--id", toString osd.id,
               "--conf", osd.config,
               "--osd-data", osd.dataPath,
               "--keyring", osd.keyringPath,
               "--cluster", osd.cluster,
               "--osd-uuid", osd.uuid]
  if osd.isFileStore then base ++ ["--osd-journal=" ++ osd.journal] else base

/-- `Cluster.makeDeployment` (`spec.go:77-251`): builds the deployment of one
provisioned OSD.  The imperative accumulation of volumes, mounts and env
vars is rendered as functional list concatenation in the source's order. -/
def Cluster.makeDeployment (c : Cluster) (nodeName : String) (devices : List Device)
    (selection : Selection) (storeConfig : StoreConfig)
    (metadataDevice location : String) (osd : OSDInfo) : Except String Deployment :=
  let base := (CephVolumeMounts, RookVolumeMounts, PodVolumes c.dataDirHostPath)
  let dirBranch :=
    if osd.isDirectory then
      let parentDir := filepathDir osd.dataPath
      if parentDir ≠ DataDir then
        let volumeName := PathToVolumeName parentDir
        (parentDir,
         base.2.2 ++ [{ name := volumeName, source := .hostPath parentDir }],
         base.1 ++ [{ name := volumeName, mountPath := parentDir }],
         base.2.1 ++ [{ name := volumeName, mountPath := parentDir }])
      else
        (parentDir, base.2.2, base.1, base.2.1)
    else
      (DataDir,
       base.2.2 ++ [{ name := "devices", source := .hostPath ("/dev") }],
       base.1 ++ [{ name := "devices", mountPath := "/dev" }],
       base.2.1)
  let dataDir := dirBranch.1
  let volumes := dirBranch.2.1
  let volumeMounts := dirBranch.2.2.1
  let configVolumeMounts := dirBranch.2.2.2
  if volumes.length = 0 then .error ("empty volumes") else
  let osdID := toString osd.id
  let tiniEnvVar : EnvVar := { name := "TINI_SUBREAPER" }
  let envVars := [nodeNameEnvVar nodeName, PodIPEnvVar PrivateIPEnvVar,
                  PodIPEnvVar PublicIPEnvVar, tiniEnvVar] ++ ClusterDaemonEnvVars
  let configEnvVars := c.getConfigEnvVars storeConfig dataDir nodeName location
    ++ [tiniEnvVar, { name := "ROOK_OSD_ID", value := osdID }]
  let commonArgs := osdCommonArgs osd
  let stagedBranch :=
    if osd.isDirectory = false ∧ osd.isFileStore = true then
      let sourcePath := pathJoin ("/dev/disk/by-partuuid") osd.devicePartUUID
      let command := [pathJoin BinariesMountPath ("tini")]
      let args := ["--", pathJoin BinariesMountPath ("rook"),
                   "ceph", "osd", "filestore-device",
                   "--source-path", sourcePath,
                   "--mount-path", osd.dataPath,
                   "--"] ++ commonArgs
      let copyPair := c.getCopyBinariesContainer
      (command, args, some copyPair.2,
       volumes ++ [copyPair.1],
       volumeMounts ++ [rookBinariesMount],
       configEnvVars ++ [{ name := "ROOK_PATH", value := rookBinariesMountPath }],
       configVolumeMounts ++ [rookBinariesMount])
    else
      (["ceph-osd"], commonArgs, none,
       volumes, volumeMounts, configEnvVars, configVolumeMounts)
  let command := stagedBranch.1
  let args := stagedBranch.2.1
  let copyBinariesContainer := stagedBranch.2.2.1
  let volumes := stagedBranch.2.2.2.1
  let volumeMounts := stagedBranch.2.2.2.2.1
  let configEnvVars := stagedBranch.2.2.2.2.2.1
  let configVolumeMounts := stagedBranch.2.2.2.2.2.2
  let securityContext : SecurityContext :=
    { privileged := true, runAsUser := 0, readOnlyRootFilesystem := some false }
  let initContainers : List Container :=
    [ { name := ConfigInitContainerName,
        image := MakeRookImage c.rookVersion,
        args := ["ceph", "osd", "init"],
        volumeMounts := configVolumeMounts,
        env := configEnvVars,
        securityContext := some securityContext } ]
  let initContainers := initContainers ++
    (match copyBinariesContainer with
     | some ctr => [ctr]
     | none => [])
  .ok { name := "rook-ceph-osd-" ++ osdID,
        nspace := c.nspace,
        podSpec :=
          { initContainers := initContainers,
            containers :=
              [ { name := "osd",
                  image := c.cephImage,
                  command := command,
                  args := args,
                  volumeMounts := volumeMounts,
                  env := envVars,
                  securityContext := some securityContext } ],
            volumes := volumes,
            hostNetwork := c.hostNetwork,
            hostPID := true } }

/-- `Cluster.provisionOSDContainer` (`spec.go:363-436`): the provisioning
container, with the prioritized device selectors, the optional metadata
device, and the independent directory handling in the source's order. -/
def Cluster.provisionOSDContainer (c : Cluster) (devices : List Device)
    (selection : Selection) (storeConfig : StoreConfig)
    (metadataDevice nodeName location : String)
    (copyBinariesMount : VolumeMount) : Container :=
  let envVars := c.getConfigEnvVars storeConfig DataDir nodeName location
  -- only 1 of device list, device filter and use all devices can be
  -- specified; prioritized in that order (spec.go:370-384)
  let selectorEnv :=
    if devices.length > 0 then
      [dataDevicesEnvVar (String.intercalate ("," ) (devices.map (fun d => d.name)))]
    else if selection.deviceFilter ≠ "" then
      [deviceFilterEnvVar selection.deviceFilter]
    else if selection.getUseAllDevices then
      [deviceFilterEnvVar ("all")]
    else []
  let devMountNeeded :=
    decide (devices.length > 0) || decide (selection.deviceFilter ≠ "") ||
      selection.getUseAllDevices || decide (metadataDevice ≠ "")
  let envVars := envVars ++ selectorEnv
    ++ (if metadataDevice ≠ "" then [metadataDeviceEnvVar metadataDevice] else [])
  let volumeMounts := CephVolumeMounts ++ [copyBinariesMount]
  let volumeMounts :=
    if devMountNeeded then
      volumeMounts ++ [{ name := "devices", mountPath := "/dev" },
                       { name := "udev", mountPath := "/run/udev" }]
    else volumeMounts
  let dirPaths := selection.directories.map (fun d => d.path)
  let volumeMounts :=
    if selection.directories.length > 0 then
      volumeMounts ++ dirPaths.map (fun d => { name := PathToVolumeName d, mountPath := d })
    else volumeMounts
  let envVars := envVars ++
    (if selection.directories.length > 0 ∧ IsRemovingNode selection.deviceFilter = false then
      [dataDirectoriesEnvVar (String.intercalate ("," ) dirPaths)]
    else [])
  let privileged := devMountNeeded || c.hostpathRequiresPrivileged
  { name := "provision",
    image := c.cephImage,
    command := [pathJoin rookBinariesMountPath ("tini")],
    args := ["--", pathJoin rookBinariesMountPath ("rook"), "ceph", "osd", "provision"],
    volumeMounts := volumeMounts,
    env := envVars,
    securityContext := some
      { privileged := privileged, runAsUser := 0,
        runAsNonRoot := some false, readOnlyRootFilesystem := some false } }

/-- `Cluster.provisionPodTemplateSpec` (`spec.go:269-324`): the provisioning
pod, its volumes (base volumes, the staged-binaries volume, the conditional
device volumes and one host-path volume per selected directory) and the two
containers. -/
def Cluster.provisionPodTemplateSpec (c : Cluster) (devices : List Device)
    (selection : Selection) (storeConfig : StoreConfig)
    (metadataDevice nodeName location : String) : Except String PodSpec :=
  let copyPair := c.getCopyBinariesContainer
  let volumes := PodVolumes c.dataDirHostPath ++ [copyPair.1]
  -- by default, don't define any volume config unless it is required
  let volumes :=
    if devices.length > 0 ∨ selection.deviceFilter ≠ "" ∨
        selection.getUseAllDevices = true ∨ metadataDevice ≠ "" then
      volumes ++ [{ name := "devices", source := .hostPath ("/dev") },
                  { name := "udev", source := .hostPath ("/run/udev") }]
    else volumes
  -- add each OSD directory as another host path volume source
  let volumes : List Volume := volumes ++ selection.directories.map
    (fun d => { name := PathToVolumeName d.path, source := VolumeSource.hostPath d.path })
  if volumes.length = 0 then .error ("empty volumes") else
  .ok { containers :=
          [ copyPair.2,
            c.provisionOSDContainer devices selection storeConfig metadataDevice
              nodeName location rookBinariesMount ],
        volumes := volumes,
        hostNetwork := c.hostNetwork }

/-- The Go map insertion used to model `map[string]string` assignment:
replace the value at an existing key, otherwise append the binding. -/
def mapInsert : List (String × String) → String → String → List (String × String)
  | [], k, v => [(k, v)]
  | (k', v') :: rest, k, v =>
      if k' = k then (k, v) :: rest else (k', v') :: mapInsert rest k v

/-- One step of `getConfigFromContainer`'s switch (`spec.go:498-511`). -/
def configStep (cfg : List (String × String)) (envVar : EnvVar) : List (String × String) :=
  if envVar.name = osdStoreEnvVarName then mapInsert cfg StoreTypeKey envVar.value
  else if envVar.name = osdDatabaseSizeEnvVarName then mapInsert cfg DatabaseSizeMBKey envVar.value
  else if envVar.name = osdWalSizeEnvVarName then mapInsert cfg WalSizeMBKey envVar.value
  else if envVar.name = osdJournalSizeEnvVarName then mapInsert cfg JournalSizeMBKey envVar.value
  else if envVar.name = osdMetadataDeviceEnvVarName then mapInsert cfg MetadataDeviceKey envVar.value
  else cfg

/-- `getConfigFromContainer` (`spec.go:495-514`): reads the store
configuration back out of a container's environment. -/
def getConfigFromContainer (osdContainer : Container) : List (String × String) :=
  osdContainer.env.foldl configStep []

/-- C2: the raw-device/file-based combination, and only it, produces the
binary-staging helper: the copy-binaries init container is added after the
config init container, the shared ephemeral volume is in the pod volumes and
in the daemon's mounts, and the daemon command is the staged tini/rook
wrapper mounting the device by partition UUID around the common arguments;
every other combination runs `ceph-osd` directly on the common arguments
with no staging container or volume. -/
theorem makeDeployment_staging_iff (c : Cluster) (nodeName : String)
    (devices : List Device) (selection : Selection) (storeConfig : StoreConfig)
    (metadataDevice location : String) (osd : OSDInfo) :
    match c.makeDeployment nodeName devices selection storeConfig metadataDevice location osd with
    | .error _ => False
    | .ok d =>
      let daemon := d.podSpec.containers.headD {}
      if osd.isDirectory = false ∧ osd.isFileStore = true then
        d.podSpec.initContainers.map Container.name = [ConfigInitContainerName, "copy-bins"] ∧
        (c.getCopyBinariesContainer).2 ∈ d.podSpec.initContainers ∧
        rookBinariesVolume ∈ d.podSpec.volumes ∧
        rookBinariesMount ∈ daemon.volumeMounts ∧
        daemon.command = [pathJoin BinariesMountPath ("tini")] ∧
        daemon.args = ["--", pathJoin BinariesMountPath ("rook"),
                       "ceph", "osd", "filestore-device",
                       "--source-path", pathJoin ("/dev/disk/by-partuuid") osd.devicePartUUID,
                       "--mount-path", osd.dataPath,
                       "--"] ++ osdCommonArgs osd
      else
        d.podSpec.initContainers.map Container.name = [ConfigInitContainerName] ∧
        rookBinariesVolume ∉ d.podSpec.volumes ∧
        rookBinariesMount ∉ daemon.volumeMounts ∧
        daemon.command = ["ceph-osd"] ∧
        daemon.args = osdCommonArgs osd := by
  by_cases hd : osd.isDirectory
  · by_cases hp : filepathDir osd.dataPath = "/var/lib/rook"
    · simp [Cluster.makeDeployment, Cluster.getCopyBinariesContainer, hd, hp,
            PodVolumes, CephVolumeMounts, RookVolumeMounts, rookBinariesVolume,
            rookBinariesMount, Volume.mk.injEq, VolumeMount.mk.injEq,
            rookBinariesVolumeName, rookBinariesMountPath, DataDir]
    · simp only [Cluster.makeDeployment, Cluster.getCopyBinariesContainer]
      simp [hd, hp, PodVolumes, CephVolumeMounts, RookVolumeMounts, rookBinariesVolume,
            rookBinariesMount, Volume.mk.injEq, VolumeMount.mk.injEq,
            rookBinariesVolumeName, rookBinariesMountPath, DataDir]
      intro h₁ h₂
      rw [← h₂] at h₁
      simp [PathToVolumeName] at h₁
  · by_cases hf : osd.isFileStore
    · simp [Cluster.makeDeployment, Cluster.getCopyBinariesContainer, hd, hf,
            PodVolumes, CephVolumeMounts, RookVolumeMounts, rookBinariesVolume,
            rookBinariesMount, Volume.mk.injEq, VolumeMount.mk.injEq,
            rookBinariesVolumeName, rookBinariesMountPath, DataDir]
    · simp [Cluster.makeDeployment, Cluster.getCopyBinariesContainer, hd, hf,
            PodVolumes, CephVolumeMounts, RookVolumeMounts, rookBinariesVolume,
            rookBinariesMount, Volume.mk.injEq, VolumeMount.mk.injEq,
            rookBinariesVolumeName, rookBinariesMountPath, DataDir]

/-- C5: for a directory-backed OSD, a data path whose parent is the default
data directory adds no extra volume or mount; any other parent adds exactly
one host-path volume of that parent to the pod volumes, the daemon mounts
and the config init container mounts. -/
theorem makeDeployment_directory_mounts (c : Cluster) (nodeName : String)
    (devices : List Device) (selection : Selection) (storeConfig : StoreConfig)
    (metadataDevice location : String) (osd : OSDInfo)
    (hdir : osd.isDirectory = true) :
    match c.makeDeployment nodeName devices selection storeConfig metadataDevice location osd with
    | .error _ => False
    | .ok d =>
      let parent := filepathDir osd.dataPath
      let daemon := d.podSpec.containers.headD {}
      let initCtr := d.podSpec.initContainers.headD {}
      if parent = DataDir then
        d.podSpec.volumes = PodVolumes c.dataDirHostPath ∧
        daemon.volumeMounts = CephVolumeMounts ∧
        initCtr.volumeMounts = RookVolumeMounts
      else
        d.podSpec.volumes = PodVolumes c.dataDirHostPath
          ++ [{ name := PathToVolumeName parent, source := .hostPath parent }] ∧
        daemon.volumeMounts = CephVolumeMounts
          ++ [{ name := PathToVolumeName parent, mountPath := parent }] ∧
        initCtr.volumeMounts = RookVolumeMounts
          ++ [{ name := PathToVolumeName parent, mountPath := parent }] := by
  by_cases hp : filepathDir osd.dataPath = DataDir
  · simp [Cluster.makeDeployment, hdir, hp, PodVolumes, CephVolumeMounts, RookVolumeMounts]
  · simp [Cluster.makeDeployment, hdir, hp, PodVolumes, CephVolumeMounts, RookVolumeMounts]

/-- Folding the config switch over the media-selector env var (whichever of
the prioritized three fires) changes nothing. -/
theorem foldl_configStep_selector (cfg : List (String × String)) (devices : List Device)
    (selection : Selection) :
    List.foldl configStep cfg
      (if 0 < devices.length then
        [dataDevicesEnvVar (String.intercalate ("," ) (devices.map (fun d => d.name)))]
      else if selection.deviceFilter = "" then
        (if selection.getUseAllDevices = true then [deviceFilterEnvVar ("all")] else [])
      else [deviceFilterEnvVar selection.deviceFilter]) = cfg := by
  split_ifs <;>
    simp [configStep, dataDevicesEnvVar, deviceFilterEnvVar, osdStoreEnvVarName,
          osdDatabaseSizeEnvVarName, osdWalSizeEnvVarName, osdJournalSizeEnvVarName,
          osdMetadataDeviceEnvVarName]

/-- Folding the config switch over the optional location env var changes
nothing. -/
theorem foldl_configStep_location (cfg : List (String × String)) (location : String) :
    List.foldl configStep cfg
      (if location = "" then [] else [LocationEnvVar location]) = cfg := by
  split_ifs <;>
    simp [configStep, LocationEnvVar, osdStoreEnvVarName, osdDatabaseSizeEnvVarName,
          osdWalSizeEnvVarName, osdJournalSizeEnvVarName, osdMetadataDeviceEnvVarName]

/-- Folding the config switch over the optional directory-list env var
changes nothing. -/
theorem foldl_configStep_dirs (cfg : List (String × String)) (b : Prop) [Decidable b]
    (s : String) :
    List.foldl configStep cfg (if b then [dataDirectoriesEnvVar s] else []) = cfg := by
  split_ifs <;>
    simp [configStep, dataDirectoriesEnvVar, dataDirsEnvVarName, osdStoreEnvVarName,
          osdDatabaseSizeEnvVarName, osdWalSizeEnvVarName, osdJournalSizeEnvVarName,
          osdMetadataDeviceEnvVarName]

/-- C10: round-trip of the provisioning configuration through the container
environment.  Reading the container built by `provisionOSDContainer` back
with `getConfigFromContainer` yields exactly the supplied store type,
database size, WAL size, journal size and metadata device — each entry
present iff the supplied value is non-empty/non-zero, numeric values
rendered as decimal strings. -/
theorem getConfigFromContainer_roundtrip (c : Cluster) (devices : List Device)
    (selection : Selection) (storeConfig : StoreConfig)
    (metadataDevice nodeName location : String) (copyBinariesMount : VolumeMount) :
    getConfigFromContainer
      (c.provisionOSDContainer devices selection storeConfig metadataDevice
        nodeName location copyBinariesMount) =
      (if storeConfig.storeType ≠ "" then [(StoreTypeKey, storeConfig.storeType)] else [])
      ++ (if storeConfig.databaseSizeMB ≠ 0 then
            [(DatabaseSizeMBKey, toString storeConfig.databaseSizeMB)] else [])
      ++ (if storeConfig.walSizeMB ≠ 0 then
            [(WalSizeMBKey, toString storeConfig.walSizeMB)] else [])
      ++ (if storeConfig.journalSizeMB ≠ 0 then
            [(JournalSizeMBKey, toString storeConfig.journalSizeMB)] else [])
      ++ (if metadataDevice ≠ "" then [(MetadataDeviceKey, metadataDevice)] else []) := by
  by_cases h₁ : storeConfig.storeType = "" <;>
    by_cases h₂ : storeConfig.databaseSizeMB = 0 <;>
      by_cases h₃ : storeConfig.walSizeMB = 0 <;>
        by_cases h₄ : storeConfig.journalSizeMB = 0 <;>
          by_cases h₅ : metadataDevice = "" <;>
            simp [getConfigFromContainer, Cluster.provisionOSDContainer,
                  Cluster.getConfigEnvVars, h₁, h₂, h₃, h₄, h₅, List.foldl_append,
                  foldl_configStep_selector,
                  foldl_configStep_location, foldl_configStep_dirs, configStep, mapInsert,
                  osdStoreEnvVar, osdDatabaseSizeEnvVar, osdWalSizeEnvVar,
                  osdJournalSizeEnvVar, metadataDeviceEnvVar, osdStoreEnvVarName,
                  osdDatabaseSizeEnvVarName, osdWalSizeEnvVarName, osdJournalSizeEnvVarName,
                  osdMetadataDeviceEnvVarName, StoreTypeKey, DatabaseSizeMBKey,
                  WalSizeMBKey, JournalSizeMBKey, MetadataDeviceKey,
                  nodeNameEnvVar, PodIPEnvVar, ClusterNameEnvVar, EndpointEnvVar,
                  SecretEnvVar, AdminSecretEnvVar, ConfigDirEnvVar, ConfigOverrideEnvVar,
                  PrivateIPEnvVar, PublicIPEnvVar]


/-- A concrete raw-device file-based OSD (the staging combination). -/
def osdRawFileStore : OSDInfo :=
  { isFileStore := true, devicePartUUID := "abc-123", dataPath := "/var/lib/rook/osd0" }

/-- Witness for C2 at a concrete raw-device file-based OSD. -/
theorem makeDeployment_staging_iff_witness :
    (match Cluster.makeDeployment {} ("node1") [] {} {} ("") ("") osdRawFileStore with
     | .error _ => False
     | .ok d =>
       let daemon := d.podSpec.containers.headD {}
       if osdRawFileStore.isDirectory = false ∧ osdRawFileStore.isFileStore = true then
         d.podSpec.initContainers.map Container.name = [ConfigInitContainerName, "copy-bins"] ∧
         (Cluster.getCopyBinariesContainer {}).2 ∈ d.podSpec.initContainers ∧
         rookBinariesVolume ∈ d.podSpec.volumes ∧
         rookBinariesMount ∈ daemon.volumeMounts ∧
         daemon.command = [pathJoin BinariesMountPath ("tini")] ∧
         daemon.args = ["--", pathJoin BinariesMountPath ("rook"),
                        "ceph", "osd", "filestore-device",
                        "--source-path",
                        pathJoin ("/dev/disk/by-partuuid") osdRawFileStore.devicePartUUID,
                        "--mount-path", osdRawFileStore.dataPath,
                        "--"] ++ osdCommonArgs osdRawFileStore
       else
         d.podSpec.initContainers.map Container.name = [ConfigInitContainerName] ∧
         rookBinariesVolume ∉ d.podSpec.volumes ∧
         rookBinariesMount ∉ daemon.volumeMounts ∧
         daemon.command = ["ceph-osd"] ∧
         daemon.args = osdCommonArgs osdRawFileStore) :=
  makeDeployment_staging_iff {} ("node1") [] {} {} ("") ("") osdRawFileStore

/-- The environment of the provisioning container, as the base config vars
followed by the selector, metadata-device and directory-list vars. -/
theorem provisionOSDContainer_env (c : Cluster) (devices : List Device)
    (selection : Selection) (storeConfig : StoreConfig)
    (metadataDevice nodeName location : String) (copyBinariesMount : VolumeMount) :
    (c.provisionOSDContainer devices selection storeConfig metadataDevice
      nodeName location copyBinariesMount).env =
      c.getConfigEnvVars storeConfig DataDir nodeName location
      ++ (if 0 < devices.length then
            [dataDevicesEnvVar (String.intercalate ("," ) (devices.map (fun d => d.name)))]
          else if selection.deviceFilter = "" then
            (if selection.getUseAllDevices = true then [deviceFilterEnvVar ("all")] else [])
          else [deviceFilterEnvVar selection.deviceFilter])
      ++ (if metadataDevice = "" then [] else [metadataDeviceEnvVar metadataDevice])
      ++ (if 0 < selection.directories.length ∧ IsRemovingNode selection.deviceFilter = false then
            [dataDirectoriesEnvVar
              (String.intercalate ("," ) (selection.directories.map (fun d => d.path)))]
          else []) := by
  simp [Cluster.provisionOSDContainer]

/-- The device-list env var is never among the common config env vars. -/
theorem dataDevicesEnvVar_notMem_config (c : Cluster) (storeConfig : StoreConfig)
    (dataDir nodeName location ds : String) :
    dataDevicesEnvVar ds ∉ c.getConfigEnvVars storeConfig dataDir nodeName location := by
  simp only [Cluster.getConfigEnvVars]
  split_ifs <;>
    simp [dataDevicesEnvVar, nodeNameEnvVar, PodIPEnvVar, ClusterNameEnvVar, EndpointEnvVar,
          SecretEnvVar, AdminSecretEnvVar, ConfigDirEnvVar, ConfigOverrideEnvVar,
          LocationEnvVar, PrivateIPEnvVar, PublicIPEnvVar, osdStoreEnvVar,
          osdDatabaseSizeEnvVar, osdWalSizeEnvVar, osdJournalSizeEnvVar, osdStoreEnvVarName,
          osdDatabaseSizeEnvVarName, osdWalSizeEnvVarName, osdJournalSizeEnvVarName,
          EnvVar.mk.injEq]

/-- The device-filter env var is never among the common config env vars. -/
theorem deviceFilterEnvVar_notMem_config (c : Cluster) (storeConfig : StoreConfig)
    (dataDir nodeName location f : String) :
    deviceFilterEnvVar f ∉ c.getConfigEnvVars storeConfig dataDir nodeName location := by
  simp only [Cluster.getConfigEnvVars]
  split_ifs <;>
    simp [deviceFilterEnvVar, nodeNameEnvVar, PodIPEnvVar, ClusterNameEnvVar, EndpointEnvVar,
          SecretEnvVar, AdminSecretEnvVar, ConfigDirEnvVar, ConfigOverrideEnvVar,
          LocationEnvVar, PrivateIPEnvVar, PublicIPEnvVar, osdStoreEnvVar,
          osdDatabaseSizeEnvVar, osdWalSizeEnvVar, osdJournalSizeEnvVar, osdStoreEnvVarName,
          osdDatabaseSizeEnvVarName, osdWalSizeEnvVarName, osdJournalSizeEnvVarName,
          EnvVar.mk.injEq]

/-- C3 counterexample: with an explicit device list set (the
highest-priority selector), an explicit directory list still contributes its
environment variable and its mount to the built container — lower-priority
selectors are not all ignored. -/
theorem provisionOSDContainer_directories_not_ignored :
    (let ctr := Cluster.provisionOSDContainer {} [{ name := "sda" }]
      { directories := [{ path := "/mnt/data" }] } {} ("") ("node1") ("") rookBinariesMount;
     dataDevicesEnvVar ("sda") ∈ ctr.env ∧
     dataDirectoriesEnvVar ("/mnt/data") ∈ ctr.env ∧
     { name := PathToVolumeName ("/mnt/data"), mountPath := "/mnt/data" } ∈ ctr.volumeMounts) := by
  decide

/-- C3 amended: the priority chain applies only among the three device
selectors — explicit device list over device filter over the use-all-devices
flag, with exactly the highest non-empty of those contributing its
environment variable — while the explicit directory list is handled
independently of that chain and contributes its environment variable
whenever directories are selected (and the filter is not the node-removal
sentinel), even when a higher-priority device selector is set. -/
theorem provisionOSDContainer_selector_priority (c : Cluster) (devices : List Device)
    (selection : Selection) (storeConfig : StoreConfig)
    (metadataDevice nodeName location : String) (copyBinariesMount : VolumeMount) :
    (let ctr := c.provisionOSDContainer devices selection storeConfig metadataDevice
      nodeName location copyBinariesMount;
     (devices ≠ [] →
        dataDevicesEnvVar (String.intercalate ("," ) (devices.map (fun d => d.name))) ∈ ctr.env ∧
        (∀ f, deviceFilterEnvVar f ∉ ctr.env)) ∧
     (devices = [] → selection.deviceFilter ≠ "" →
        deviceFilterEnvVar selection.deviceFilter ∈ ctr.env ∧
        (∀ ds, dataDevicesEnvVar ds ∉ ctr.env)) ∧
     (devices = [] → selection.deviceFilter = "" → selection.getUseAllDevices = true →
        deviceFilterEnvVar ("all") ∈ ctr.env ∧
        (∀ ds, dataDevicesEnvVar ds ∉ ctr.env)) ∧
     (devices = [] → selection.deviceFilter = "" → selection.getUseAllDevices = false →
        (∀ ds, dataDevicesEnvVar ds ∉ ctr.env) ∧
        (∀ f, deviceFilterEnvVar f ∉ ctr.env)) ∧
     (selection.directories ≠ [] → IsRemovingNode selection.deviceFilter = false →
        dataDirectoriesEnvVar
          (String.intercalate ("," ) (selection.directories.map (fun d => d.path))) ∈ ctr.env)) := by
  have henv := provisionOSDContainer_env c devices selection storeConfig metadataDevice
    nodeName location copyBinariesMount
  refine ⟨?_, ?_, ?_, ?_, ?_⟩
  · intro h
    have hl : 0 < devices.length := List.length_pos.mpr h
    constructor
    · simp [henv, hl]
    · intro f
      simp [henv, hl, List.mem_append, deviceFilterEnvVar, dataDevicesEnvVar,
            metadataDeviceEnvVar, dataDirectoriesEnvVar, dataDirsEnvVarName,
            osdMetadataDeviceEnvVarName, EnvVar.mk.injEq]
      exact deviceFilterEnvVar_notMem_config c storeConfig DataDir nodeName location f
  · intro h hf
    subst h
    constructor
    · simp [henv, hf]
    · intro ds
      simp [henv, hf, List.mem_append, deviceFilterEnvVar, dataDevicesEnvVar,
            metadataDeviceEnvVar, dataDirectoriesEnvVar, dataDirsEnvVarName,
            osdMetadataDeviceEnvVarName, EnvVar.mk.injEq]
      exact dataDevicesEnvVar_notMem_config c storeConfig DataDir nodeName location ds
  · intro h hf hu
    subst h
    constructor
    · simp [henv, hf, hu]
    · intro ds
      simp [henv, hf, hu, List.mem_append, deviceFilterEnvVar, dataDevicesEnvVar,
            metadataDeviceEnvVar, dataDirectoriesEnvVar, dataDirsEnvVarName,
            osdMetadataDeviceEnvVarName, EnvVar.mk.injEq]
      exact dataDevicesEnvVar_notMem_config c storeConfig DataDir nodeName location ds
  · intro h hf hu
    subst h
    constructor
    · intro ds
      simp [henv, hf, hu, List.mem_append, deviceFilterEnvVar, dataDevicesEnvVar,
            metadataDeviceEnvVar, dataDirectoriesEnvVar, dataDirsEnvVarName,
            osdMetadataDeviceEnvVarName, EnvVar.mk.injEq]
      exact dataDevicesEnvVar_notMem_config c storeConfig DataDir nodeName location ds
    · intro f
      simp [henv, hf, hu, List.mem_append, deviceFilterEnvVar, dataDevicesEnvVar,
            metadataDeviceEnvVar, dataDirectoriesEnvVar, dataDirsEnvVarName,
            osdMetadataDeviceEnvVarName, EnvVar.mk.injEq]
      exact deviceFilterEnvVar_notMem_config c storeConfig DataDir nodeName location f
  · intro h hrm
    have hl : 0 < selection.directories.length := List.length_pos.mpr h
    simp [henv, hl, hrm]

/-- A concrete directory-backed OSD whose data path sits under the default
data directory. -/
def osdFixture : OSDInfo :=
  { isDirectory := true, dataPath := "/var/lib/rook/osd1" }

/-- Witness for C3 (amended) at a concrete input: an explicit one-device
list wins the selector chain. -/
theorem provisionOSDContainer_selector_priority_witness :
    ([({ name := "sda" } : Device)] ≠ []) ∧
    (dataDevicesEnvVar
        (String.intercalate ("," ) ([({ name := "sda" } : Device)].map (fun d => d.name)))
        ∈ (Cluster.provisionOSDContainer {} [{ name := "sda" }] {} {} ("") ("node1") ("")
            rookBinariesMount).env ∧
      (∀ f, deviceFilterEnvVar f ∉
        (Cluster.provisionOSDContainer {} [{ name := "sda" }] {} {} ("") ("node1") ("")
          rookBinariesMount).env)) :=
  ⟨by simp,
   (provisionOSDContainer_selector_priority {} [{ name := "sda" }] {} {} ("") ("node1") ("")
      rookBinariesMount).1 (by simp)⟩

/-- Witness for C5 at a concrete directory-backed OSD under the default
data directory. -/
theorem makeDeployment_directory_mounts_witness :
    osdFixture.isDirectory = true ∧
    (match Cluster.makeDeployment {} ("node1") [] {} {} ("") ("") osdFixture with
     | .error _ => False
     | .ok d =>
       let parent := filepathDir osdFixture.dataPath
       let daemon := d.podSpec.containers.headD {}
       let initCtr := d.podSpec.initContainers.headD {}
       if parent = DataDir then
         d.podSpec.volumes = PodVolumes ({} : Cluster).dataDirHostPath ∧
         daemon.volumeMounts = CephVolumeMounts ∧
         initCtr.volumeMounts = RookVolumeMounts
       else
         d.podSpec.volumes = PodVolumes ({} : Cluster).dataDirHostPath
           ++ [{ name := PathToVolumeName parent, source := .hostPath parent }] ∧
         daemon.volumeMounts = CephVolumeMounts
           ++ [{ name := PathToVolumeName parent, mountPath := parent }] ∧
         initCtr.volumeMounts = RookVolumeMounts
           ++ [{ name := PathToVolumeName parent, mountPath := parent }]) :=
  ⟨rfl, makeDeployment_directory_mounts {} ("node1") [] {} {} ("") ("") osdFixture rfl⟩

/-- C4 counterexample: with no device list, no filter, no use-all flag, no
metadata device and no directory list resolved, the builder does not fail
with "empty volumes" — it succeeds, because the base volumes and the
staged-binaries volume are always present. -/
theorem provisionPodTemplateSpec_no_media_ok :
    (Cluster.provisionPodTemplateSpec {} [] {} {} ("") ("node1") ("")).isOk = true := by
  rfl

/-- C4 amended: the "empty volumes" guard is unreachable — for every input,
`provisionPodTemplateSpec` (whose volume list always contains the base pod
volumes and the staged-binaries volume) and `makeDeployment` (whose volume
list always contains the base pod volumes) succeed; the error is never
returned. -/
theorem empty_volumes_unreachable (c : Cluster) (nodeName : String)
    (devices : List Device) (selection : Selection) (storeConfig : StoreConfig)
    (metadataDevice location : String) (osd : OSDInfo) :
    (c.provisionPodTemplateSpec devices selection storeConfig metadataDevice
      nodeName location).isOk = true ∧
    (c.makeDeployment nodeName devices selection storeConfig metadataDevice
      location osd).isOk = true := by
  constructor
  · simp only [Cluster.provisionPodTemplateSpec, Cluster.getCopyBinariesContainer,
               PodVolumes]
    split_ifs <;> simp_all [Except.isOk, Except.toBool]
  · simp only [Cluster.makeDeployment, PodVolumes]
    split_ifs <;> simp_all [Except.isOk, Except.toBool]

/-- Witness for C4 (amended) at a concrete input. -/
theorem empty_volumes_unreachable_witness :
    (Cluster.provisionPodTemplateSpec {} [] {} {} ("") ("node2") ("")).isOk = true ∧
    (Cluster.makeDeployment {} ("node2") [] {} {} ("") ("") {}).isOk = true :=
  empty_volumes_unreachable {} ("node2") [] {} {} ("") ("") {}

/-- Witness for C10 at a concrete store configuration. -/
theorem getConfigFromContainer_roundtrip_witness :
    getConfigFromContainer (Cluster.provisionOSDContainer {} [] {}
      { storeType := "bluestore", databaseSizeMB := 1024 } ("nvme0n1") ("node3") ("")
      rookBinariesMount) =
      [(StoreTypeKey, "bluestore"), (DatabaseSizeMBKey, "1024"),
       (MetadataDeviceKey, "nvme0n1")] :=
  (getConfigFromContainer_roundtrip {} [] {}
    { storeType := "bluestore", databaseSizeMB := 1024 } ("nvme0n1") ("node3") ("")
    rookBinariesMount).trans (by rfl)

/-! ## NFS ganesha controller

The controller (`createGanesha`, `deleteGanesha` and their helpers) talks to
the Kubernetes substrate and to the `ganesha-rados-grace` subprocess.  Its
interaction is embedded as a trace-producing interpreter: the substrate's
behaviour is an explicit record of response functions, the controller
returns the ordered list of calls it issued, the warnings it logged, and its
result. -/

/-- The outcome of one substrate call, as the controller distinguishes them
(`errors.IsAlreadyExists`, `errors.IsNotFound`, other errors). -/
inductive K8sResult
  | ok
  | alreadyExists
  | notFound
  | otherErr (msg : String)
deriving DecidableEq

/-- A config map as built by `generateConfig` (name, namespace and the
single `config` data key). -/
structure GaneshaConfigMap where
  name : String
  nspace : String
  data : List (String × String)
deriving DecidableEq

/-- One substrate call issued by the controller, in issue order. -/
inductive Event
  | createConfigMap (cm : GaneshaConfigMap)
  | updateConfigMap (cm : GaneshaConfigMap)
  | createDeployment (name : String)
  | createService (name : String)
  | graceAdd (pool nspace ident : String)
  | graceRemove (pool nspace ident : String)
  | deleteDeployment (name : String)
  | deleteService (name : String)
deriving DecidableEq

/-- The substrate's responses: one function per call kind.  Grace-database
calls return whether the subprocess exited zero. -/
structure Substrate where
  createConfigMap : GaneshaConfigMap → K8sResult := fun _ => .ok
  updateConfigMap : GaneshaConfigMap → K8sResult := fun _ => .ok
  createDeployment : String → K8sResult := fun _ => .ok
  createService : String → K8sResult := fun _ => .ok
  graceAdd : String → Bool := fun _ => true
  graceRemove : String → Bool := fun _ => true
  deleteDeployment : String → K8sResult := fun _ => .ok
  deleteService : String → K8sResult := fun _ => .ok

/-- `cephv1beta1.GaneshaStoreSpec`. -/
structure GaneshaStoreSpec where
  name : String := ""
  type : String := ""
deriving DecidableEq

/-- `cephv1beta1.GaneshaClientRecoverySpec` (pool and RADOS namespace). -/
structure ClientRecoverySpec where
  pool : String := ""
  nspace : String := ""
deriving DecidableEq

/-- `cephv1beta1.GaneshaServerSpec` (desired active count). -/
structure GaneshaServerSpec where
  active : Int := 0
deriving DecidableEq

/-- `cephv1beta1.GaneshaExportSpec` (the fields `validateGanesha` reads). -/
structure GaneshaExportSpec where
  path : String := ""
  pseudoPath : String := ""
deriving DecidableEq

/-- `cephv1beta1.NFSGaneshaSpec`. -/
structure NFSGaneshaSpec where
  store : GaneshaStoreSpec := {}
  clientRecovery : ClientRecoverySpec := {}
  exports : List GaneshaExportSpec := []
  server : GaneshaServerSpec := {}
deriving DecidableEq

/-- `cephv1beta1.NFSGanesha` (object meta plus spec). -/
structure NFSGanesha where
  name : String := ""
  nspace : String := ""
  spec : NFSGaneshaSpec := {}
deriving DecidableEq

/-- The ganesha app name constant. -/
def ganeshaAppName : String := "rook-ceph-ganesha"

/-- `instanceName`: `<appName>-<parentName>-<identity>`. -/
def instanceName (n : NFSGanesha) (name : String) : String :=
  ganeshaAppName ++ "-" ++ n.name ++ "-" ++ name

/-- `verifyExportExists`: always succeeds (the source is an empty TODO
stub). -/
def verifyExportExists (export' : GaneshaExportSpec) : Except String Unit := .ok ()

/-- The per-export loop of `validateGanesha`: missing `path` or
`pseudoPath` fails with the export's index in the message. -/
def validateExports (i : Nat) : List GaneshaExportSpec → Except String Unit
  | [] => .ok ()
  | e :: rest =>
    if e.path = "" then .error ("missing path for export " ++ toString i)
    else if e.pseudoPath = "" then .error ("missing pseudoPath for export " ++ toString i)
    else match verifyExportExists e with
      | .error msg => .error ("invalid export path. " ++ msg)
      | .ok () => validateExports (i + 1) rest

/-- `validateGanesha`: presence and enum checks in source order; the active
count is checked last. -/
def validateGanesha (n : NFSGanesha) : Except String Unit :=
  if n.name = "" then .error ("missing name")
  else if n.nspace = "" then .error ("missing namespace")
  else if n.spec.store.name = "" then .error ("missing storeName")
  else if n.spec.store.type ≠ "file" ∧ n.spec.store.type ≠ "object" then
    .error ("unrecognized store type: " ++ n.spec.store.type)
  else if n.spec.clientRecovery.pool = "" then .error ("missing clientRecovery.pool")
  else if n.spec.clientRecovery.nspace = "" then .error ("missing clientRecovery.namesapce")
  else if n.spec.exports.length = 0 then .error ("at least one export is required")
  else match validateExports 0 n.spec.exports with
    | .error msg => .error msg
    | .ok () =>
      if n.spec.server.active = 0 then .error ("at least one active server required")
      else .ok ()

/-- Modelled from the spec: `getGaneshaConfig` (the per-instance ganesha
configuration content) is defined in a file not under `src/`.  The spec pins
one line bit-exactly: the `%url rados://<pool>/<ns>/conf-<identity>`
directive pointing at the recovery-backed per-instance config object; the
rest of the file is opaque to the claims. -/
def getGaneshaConfig (spec : NFSGaneshaSpec) (name : String) : String :=
  "%url\trados://" ++ spec.clientRecovery.pool ++ "/" ++ spec.clientRecovery.nspace
    ++ "/conf-" ++ name

/-- The config map built by `generateConfig` for one instance. -/
def ganeshaConfigMap (n : NFSGanesha) (name : String) : GaneshaConfigMap :=
  { name := ganeshaAppName ++ "-" ++ n.name ++ "-" ++ name,
    nspace := n.nspace,
    data := [("config", getGaneshaConfig n.spec name)] }

/-- `generateConfig`: create the config map; on already-exists, update it
with the same freshly built content and return its name; any other create
failure, or an update failure, is an error. -/
def generateConfig (sub : Substrate) (n : NFSGanesha) (name : String) :
    List Event × Except String String :=
  let cm := ganeshaConfigMap n name
  match sub.createConfigMap cm with
  | .ok => ([.createConfigMap cm], .ok cm.name)
  | .alreadyExists =>
    match sub.updateConfigMap cm with
    | .ok => ([.createConfigMap cm, .updateConfigMap cm], .ok cm.name)
    | _ => ([.createConfigMap cm, .updateConfigMap cm],
            .error ("failed to update ganesha config."))
  | _ => ([.createConfigMap cm], .error ("failed to create ganesha config."))

/-- One iteration of `createGanesha`'s loop: config, deployment (tolerating
already-exists), service (tolerating already-exists), then the best-effort
grace-database `add` whose failure is only a warning. -/
def createInstance (sub : Substrate) (n : NFSGanesha) (i : Nat) :
    List Event × List String × Except String Unit :=
  let name := identityOf i
  let confRes := generateConfig sub n name
  match confRes.2 with
  | .error e => (confRes.1, [], .error ("failed to create config. " ++ e))
  | .ok _configName =>
    let dep := instanceName n name
    let evs := confRes.1 ++ [Event.createDeployment dep]
    match sub.createDeployment dep with
    | .ok => createInstanceAfterDeployment sub n name evs
    | .alreadyExists => createInstanceAfterDeployment sub n name evs
    | _ => (evs, [], .error ("failed to create mds deployment."))
where
  /-- The service and grace-add tail of one creation iteration. -/
  createInstanceAfterDeployment (sub : Substrate) (n : NFSGanesha) (name : String)
      (evs : List Event) : List Event × List String × Except String Unit :=
    let svc := instanceName n name
    let evs := evs ++ [Event.createService svc]
    match sub.createService svc with
    | .ok => createInstanceGraceAdd sub n name evs
    | .alreadyExists => createInstanceGraceAdd sub n name evs
    | _ => (evs, [], .error ("failed to create ganesha service."))
  /-- The grace-add tail: emitted always, failure logged as a warning. -/
  createInstanceGraceAdd (sub : Substrate) (n : NFSGanesha) (name : String)
      (evs : List Event) : List Event × List String × Except String Unit :=
    let evs := evs ++ [Event.graceAdd n.spec.clientRecovery.pool
      n.spec.clientRecovery.nspace name]
    let warns :=
      if sub.graceAdd name then []
      else ["Failed to add ganesha server " ++ name ++ " to database."]
    (evs, warns, .ok ())

/-- `createGanesha`'s loop over the ordinals, stopping at the first
per-instance error. -/
def createLoop (sub : Substrate) (n : NFSGanesha) :
    List Nat → List Event × List String × Except String Unit
  | [] => ([], [], .ok ())
  | i :: rest =>
    let step := createInstance sub n i
    match step.2.2 with
    | .error e => (step.1, step.2.1, .error e)
    | .ok () =>
      let tail := createLoop sub n rest
      (step.1 ++ tail.1, step.2.1 ++ tail.2.1, tail.2.2)

/-- `createGanesha`: validate first (no substrate call on failure), then
reconcile ordinals `0 .. active-1` in order. -/
def createGanesha (sub : Substrate) (n : NFSGanesha) :
    List Event × List String × Except String Unit :=
  match validateGanesha n with
  | .error e => ([], [], .error e)
  | .ok () => createLoop sub n (List.range n.spec.server.active.toNat)

/-- One iteration of `deleteGanesha`'s loop: grace-database `remove` first
(failure logged), then delete the deployment, then delete the service
(errors other than not-found logged); nothing aborts. -/
def deleteInstance (sub : Substrate) (n : NFSGanesha) (i : Nat) :
    List Event × List String :=
  let name := identityOf i
  let removeWarn :=
    if sub.graceRemove name then []
    else ["failed to remove server " ++ name ++ " from grace db."]
  let inst := instanceName n name
  let _depRes := sub.deleteDeployment inst
  let svcWarn :=
    match sub.deleteService inst with
    | .ok => []
    | .notFound => []
    | _ => ["failed to delete ganesha service."]
  ([Event.graceRemove n.spec.clientRecovery.pool n.spec.clientRecovery.nspace name,
    Event.deleteDeployment inst,
    Event.deleteService inst],
   removeWarn ++ svcWarn)

/-- `deleteGanesha`'s loop over the ordinals. -/
def deleteLoop (sub : Substrate) (n : NFSGanesha) :
    List Nat → List Event × List String
  | [] => ([], [])
  | i :: rest =>
    let step := deleteInstance sub n i
    let tail := deleteLoop sub n rest
    (step.1 ++ tail.1, step.2 ++ tail.2)

/-- `deleteGanesha`: best-effort deletion of ordinals `0 .. active-1`;
always returns success. -/
def deleteGanesha (sub : Substrate) (n : NFSGanesha) :
    List Event × List String × Except String Unit :=
  let run := deleteLoop sub n (List.range n.spec.server.active.toNat)
  (run.1, run.2, .ok ())

/-- The deletion trace decomposes around any processed ordinal: every
`i ∈ l` contributes its three events as one contiguous block. -/
theorem deleteLoop_events_decomp (sub : Substrate) (n : NFSGanesha) :
    ∀ l : List Nat, ∀ i ∈ l, ∃ l₁ l₂,
      (deleteLoop sub n l).1 = l₁ ++ ((deleteInstance sub n i).1 ++ l₂) := by
  intro l
  induction l with
  | nil => intro i hi; simp at hi
  | cons a as ih =>
    intro i hi
    rcases List.mem_cons.mp hi with h | h
    · subst h
      exact ⟨[], (deleteLoop sub n as).1, by simp [deleteLoop]⟩
    · obtain ⟨l₁, l₂, he⟩ := ih i h
      refine ⟨(deleteInstance sub n a).1 ++ l₁, l₂, ?_⟩
      simp [deleteLoop, he]

/-- With every grace `remove` succeeding and every service deletion
answering not-found, the deletion pass logs no warning. -/
theorem deleteLoop_warns_nil (sub : Substrate) (n : NFSGanesha)
    (h₁ : ∀ s, sub.graceRemove s = true)
    (h₂ : ∀ s, sub.deleteService s = .notFound) :
    ∀ l : List Nat, (deleteLoop sub n l).2 = [] := by
  intro l
  induction l with
  | nil => simp [deleteLoop]
  | cons a as ih => simp [deleteLoop, deleteInstance, h₁, h₂, ih]

/-- C6: in the deletion pass, every removed ordinal's grace-database
`remove` call is issued immediately before — in particular, before — the
deletion of that instance's deployment and service; the pass always reports
success, and not-found service deletions (with successful removes) produce
no warning. -/
theorem deleteGanesha_remove_before_delete (sub : Substrate) (n : NFSGanesha) :
    (deleteGanesha sub n).2.2 = .ok () ∧
    (∀ i, i < n.spec.server.active.toNat → ∃ l₁ l₂,
      (deleteGanesha sub n).1 =
        l₁ ++ ([Event.graceRemove n.spec.clientRecovery.pool n.spec.clientRecovery.nspace
                  (identityOf i),
                Event.deleteDeployment (instanceName n (identityOf i)),
                Event.deleteService (instanceName n (identityOf i))] ++ l₂)) ∧
    ((∀ s, sub.graceRemove s = true) → (∀ s, sub.deleteService s = .notFound) →
      (deleteGanesha sub n).2.1 = []) := by
  refine ⟨rfl, ?_, ?_⟩
  · intro i hi
    have hmem : i ∈ List.range n.spec.server.active.toNat := List.mem_range.mpr hi
    obtain ⟨l₁, l₂, he⟩ := deleteLoop_events_decomp sub n _ i hmem
    refine ⟨l₁, l₂, ?_⟩
    simpa [deleteGanesha, deleteInstance] using he
  · intro h₁ h₂
    simpa [deleteGanesha] using deleteLoop_warns_nil sub n h₁ h₂ _

/-- A valid two-instance export-gateway fleet specification. -/
def nFixture : NFSGanesha :=
  { name := "nfs1", nspace := "rook",
    spec := { store := { name := "store1", type := "file" },
              clientRecovery := { pool := "pool1", nspace := "ns1" },
              exports := [{ path := "/a", pseudoPath := "/b" }],
              server := { active := 2 } } }

/-- A substrate whose service deletions answer not-found. -/
def subNotFound : Substrate := { deleteService := fun _ => .notFound }

/-- Witness for C6 at the concrete two-instance fleet: the pass succeeds
with no warning, and ordinal 0's remove call precedes its deletions in the
trace. -/
theorem deleteGanesha_remove_before_delete_witness :
    (deleteGanesha subNotFound nFixture).2.2 = .ok () ∧
    (deleteGanesha subNotFound nFixture).2.1 = [] ∧
    Event.graceRemove ("pool1") ("ns1") (identityOf 0) ∈ (deleteGanesha subNotFound nFixture).1 := by
  obtain ⟨hok, hord, hwarn⟩ := deleteGanesha_remove_before_delete subNotFound nFixture
  refine ⟨hok, hwarn (fun s => rfl) (fun s => rfl), ?_⟩
  obtain ⟨l₁, l₂, he⟩ := hord 0 (by decide)
  rw [he]
  simp [nFixture]

/-- One creation iteration under an all-successful Kubernetes substrate
issues config-map, deployment, service and grace-add calls in order and
succeeds, warning exactly when the grace `add` fails. -/
theorem createInstance_all_ok (sub : Substrate) (n : NFSGanesha) (i : Nat)
    (hcm : ∀ cm, sub.createConfigMap cm = .ok)
    (hdep : ∀ s, sub.createDeployment s = .ok)
    (hsvc : ∀ s, sub.createService s = .ok) :
    createInstance sub n i =
      ([.createConfigMap (ganeshaConfigMap n (identityOf i)),
        .createDeployment (instanceName n (identityOf i)),
        .createService (instanceName n (identityOf i)),
        .graceAdd n.spec.clientRecovery.pool n.spec.clientRecovery.nspace (identityOf i)],
       (if sub.graceAdd (identityOf i) then []
        else ["Failed to add ganesha server " ++ identityOf i ++ " to database."]),
       .ok ()) := by
  simp [createInstance, createInstance.createInstanceAfterDeployment,
        createInstance.createInstanceGraceAdd, generateConfig, hcm, hdep, hsvc]

/-- Under an all-successful Kubernetes substrate the creation loop succeeds
for every grace-add outcome and processes every listed ordinal. -/
theorem createLoop_all_ok (sub : Substrate) (n : NFSGanesha)
    (hcm : ∀ cm, sub.createConfigMap cm = .ok)
    (hdep : ∀ s, sub.createDeployment s = .ok)
    (hsvc : ∀ s, sub.createService s = .ok) :
    ∀ l : List Nat, (createLoop sub n l).2.2 = .ok () ∧
      ∀ i ∈ l,
        Event.graceAdd n.spec.clientRecovery.pool n.spec.clientRecovery.nspace (identityOf i)
          ∈ (createLoop sub n l).1 ∧
        Event.createDeployment (instanceName n (identityOf i)) ∈ (createLoop sub n l).1 := by
  intro l
  induction l with
  | nil => simp [createLoop]
  | cons a as ih =>
    have hstep := createInstance_all_ok sub n a hcm hdep hsvc
    constructor
    · simp [createLoop, hstep, ih.1]
    · intro i hi
      rcases List.mem_cons.mp hi with h | h
      · subst h
        simp [createLoop, hstep, ih.1]
      · have hm := ih.2 i h
        simp [createLoop, hstep, ih.1]
        tauto

/-- C7: grace-database call failures never abort a pass.  With the
Kubernetes substrate succeeding but `add`/`remove` failing arbitrarily
(including add-on-present and remove-on-absent), creation still succeeds
and reaches every ordinal's grace-add and deployment, and deletion still
succeeds and reaches every ordinal's deployment deletion. -/
theorem grace_failures_never_abort (sub : Substrate) (n : NFSGanesha)
    (hcm : ∀ cm, sub.createConfigMap cm = .ok)
    (hdep : ∀ s, sub.createDeployment s = .ok)
    (hsvc : ∀ s, sub.createService s = .ok)
    (hval : validateGanesha n = .ok ()) :
    (createGanesha sub n).2.2 = .ok () ∧
    (∀ i, i < n.spec.server.active.toNat →
      Event.graceAdd n.spec.clientRecovery.pool n.spec.clientRecovery.nspace (identityOf i)
        ∈ (createGanesha sub n).1 ∧
      Event.createDeployment (instanceName n (identityOf i)) ∈ (createGanesha sub n).1) ∧
    (deleteGanesha sub n).2.2 = .ok () ∧
    (∀ i, i < n.spec.server.active.toNat →
      Event.deleteDeployment (instanceName n (identityOf i)) ∈ (deleteGanesha sub n).1) := by
  have hloop := createLoop_all_ok sub n hcm hdep hsvc (List.range n.spec.server.active.toNat)
  have hcreate : createGanesha sub n =
      createLoop sub n (List.range n.spec.server.active.toNat) := by
    simp [createGanesha, hval]
  refine ⟨?_, ?_, rfl, ?_⟩
  · rw [hcreate]
    exact hloop.1
  · intro i hi
    rw [hcreate]
    exact hloop.2 i (List.mem_range.mpr hi)
  · intro i hi
    obtain ⟨l₁, l₂, he⟩ :=
      deleteLoop_events_decomp sub n (List.range n.spec.server.active.toNat) i
        (List.mem_range.mpr hi)
    have : (deleteGanesha sub n).1 = l₁ ++ ((deleteInstance sub n i).1 ++ l₂) := he
    rw [this]
    simp [deleteInstance]

/-- A substrate whose Kubernetes calls succeed but whose grace-database
calls always fail (non-zero subprocess exit). -/
def subGraceFail : Substrate := { graceAdd := fun _ => false, graceRemove := fun _ => false }

/-- Witness for C7 at the concrete two-instance fleet with every grace call
failing: both passes succeed and ordinal 1 is still reached. -/
theorem grace_failures_never_abort_witness :
    (∀ cm, subGraceFail.createConfigMap cm = .ok) ∧
    validateGanesha nFixture = .ok () ∧
    (createGanesha subGraceFail nFixture).2.2 = .ok () ∧
    Event.graceAdd ("pool1") ("ns1") (identityOf 1) ∈ (createGanesha subGraceFail nFixture).1 ∧
    Event.deleteDeployment (instanceName nFixture (identityOf 1))
      ∈ (deleteGanesha subGraceFail nFixture).1 := by
  obtain ⟨hok, hmem, hdok, hdmem⟩ :=
    grace_failures_never_abort subGraceFail nFixture (fun cm => rfl) (fun s => rfl)
      (fun s => rfl) rfl
  exact ⟨fun cm => rfl, rfl, hok, by simpa [nFixture] using (hmem 1 (by decide)).1,
         hdmem 1 (by decide)⟩

/-- A specification that passes `validateGanesha` has every required
identifier present and a non-zero active count. -/
theorem validateGanesha_ok_shape (n : NFSGanesha) (h : validateGanesha n = .ok ()) :
    n.name ≠ "" ∧ n.nspace ≠ "" ∧ n.spec.store.name ≠ "" ∧
    n.spec.clientRecovery.pool ≠ "" ∧ n.spec.clientRecovery.nspace ≠ "" ∧
    n.spec.exports ≠ [] ∧ n.spec.server.active ≠ 0 := by
  unfold validateGanesha at h
  split_ifs at h
  all_goals try (split at h)
  all_goals simp_all

/-- C8: validation fail-fast.  A fleet specification with a zero desired
active count, or a missing required identifier (name, namespace, store
name, recovery pool or namespace, exports), makes the creation pass return
a validation error with an empty call trace: no substrate call is made. -/
theorem createGanesha_validation_failfast (sub : Substrate) (n : NFSGanesha)
    (h : n.spec.server.active = 0 ∨ n.name = "" ∨ n.nspace = "" ∨
         n.spec.store.name = "" ∨ n.spec.clientRecovery.pool = "" ∨
         n.spec.clientRecovery.nspace = "" ∨ n.spec.exports = []) :
    (createGanesha sub n).1 = [] ∧ (createGanesha sub n).2.1 = [] ∧
    (createGanesha sub n).2.2.isOk = false := by
  have hne : validateGanesha n ≠ .ok () := by
    intro hok
    have hs := validateGanesha_ok_shape n hok
    rcases h with h | h | h | h | h | h | h <;> simp_all
  cases hv : validateGanesha n with
  | error e => simp [createGanesha, hv, Except.isOk, Except.toBool]
  | ok u =>
    cases u
    exact absurd hv hne

/-- Witness for C8: a fleet specification with desired active count zero
yields an error and an empty trace. -/
theorem createGanesha_validation_failfast_witness :
    (({} : NFSGanesha).spec.server.active = 0 ∨ ({} : NFSGanesha).name = "" ∨
     ({} : NFSGanesha).nspace = "" ∨ ({} : NFSGanesha).spec.store.name = "" ∨
     ({} : NFSGanesha).spec.clientRecovery.pool = "" ∨
     ({} : NFSGanesha).spec.clientRecovery.nspace = "" ∨
     ({} : NFSGanesha).spec.exports = []) ∧
    (createGanesha {} {}).1 = [] ∧ (createGanesha {} {}).2.1 = [] ∧
    (createGanesha {} {}).2.2.isOk = false :=
  ⟨Or.inl rfl, createGanesha_validation_failfast {} {} (Or.inl rfl)⟩

/-- C9: creating an instance's config artifact tolerates already-exists by
issuing an update carrying the same freshly built config map and returning
the artifact's name successfully; an error is returned exactly for a
non-already-exists create failure or an update failure. -/
theorem generateConfig_already_exists_updates (sub : Substrate) (n : NFSGanesha)
    (name : String) :
    (sub.createConfigMap (ganeshaConfigMap n name) = .ok →
      generateConfig sub n name =
        ([.createConfigMap (ganeshaConfigMap n name)], .ok (ganeshaConfigMap n name).name)) ∧
    (sub.createConfigMap (ganeshaConfigMap n name) = .alreadyExists →
      sub.updateConfigMap (ganeshaConfigMap n name) = .ok →
      generateConfig sub n name =
        ([.createConfigMap (ganeshaConfigMap n name),
          .updateConfigMap (ganeshaConfigMap n name)],
         .ok (ganeshaConfigMap n name).name)) ∧
    (∀ e, (generateConfig sub n name).2 = .error e →
      (sub.createConfigMap (ganeshaConfigMap n name) ≠ .ok ∧
       sub.createConfigMap (ganeshaConfigMap n name) ≠ .alreadyExists) ∨
      (sub.createConfigMap (ganeshaConfigMap n name) = .alreadyExists ∧
       sub.updateConfigMap (ganeshaConfigMap n name) ≠ .ok)) := by
  refine ⟨?_, ?_, ?_⟩
  · intro hc
    simp [generateConfig, hc]
  · intro hc hu
    simp [generateConfig, hc, hu]
  · intro e he
    cases hc : sub.createConfigMap (ganeshaConfigMap n name) with
    | ok => simp [generateConfig, hc] at he
    | alreadyExists =>
      cases hu : sub.updateConfigMap (ganeshaConfigMap n name) with
      | ok => simp [generateConfig, hc, hu] at he
      | alreadyExists => exact Or.inr ⟨rfl, by simp [hu]⟩
      | notFound => exact Or.inr ⟨rfl, by simp [hu]⟩
      | otherErr m => exact Or.inr ⟨rfl, by simp [hu]⟩
    | notFound => exact Or.inl ⟨by simp [hc], by simp [hc]⟩
    | otherErr m => exact Or.inl ⟨by simp [hc], by simp [hc]⟩

/-- A substrate on which config-map creation always reports
already-exists. -/
def subAlreadyExists : Substrate := { createConfigMap := fun _ => .alreadyExists }

/-- Witness for C9: on an already-existing config artifact the operation
updates with the same built content and returns the name. -/
theorem generateConfig_already_exists_updates_witness :
    subAlreadyExists.createConfigMap (ganeshaConfigMap nFixture (identityOf 0)) = .alreadyExists ∧
    subAlreadyExists.updateConfigMap (ganeshaConfigMap nFixture (identityOf 0)) = .ok ∧
    generateConfig subAlreadyExists nFixture (identityOf 0) =
      ([.createConfigMap (ganeshaConfigMap nFixture (identityOf 0)),
        .updateConfigMap (ganeshaConfigMap nFixture (identityOf 0))],
       .ok (ganeshaConfigMap nFixture (identityOf 0)).name) :=
  ⟨rfl, rfl,
   (generateConfig_already_exists_updates subAlreadyExists nFixture (identityOf 0)).2.1 rfl rfl⟩

end Rook
